import Mathlib

/-!
Shallow embedding of the MathLibTS vector library (`src/src/libs/vector3.ts`,
`Vector2`/`MathHelper` from the companion file) in Lean 4.

Modelling choices:
* Vector components are modelled as exact rationals (`ℚ`) for the purely
  arithmetic operations (sum, add, cross, lerp, equals, the constructor) and
  as reals (`ℝ`) for the operations that involve `Math.sqrt`
  (length, normalize, direction).  The `Float32Array` rounding of the source
  is idealised away; every claim settled here is insensitive to it.
* Mutation and aliasing (`dest` parameters, in-place instance methods) are
  modelled with an explicit heap: a map from reference ids (`ℕ`) to vector
  values plus an allocation counter.  Each `dest.x = …` statement of the
  source becomes one sequential heap write, so aliased calls read and write
  in exactly the source's order.
* JavaScript argument coercion in the `Vector3` constructor
  (`Number(p) || 0`, `Array.isArray`) is modelled by the `JsVal` type:
  `undefined`, a number, or an array of numbers.  `Number` of a one-element
  numeric array is its element, of any other array is `NaN` (coerced to `0`
  by `|| 0`), matching JavaScript semantics for numeric arrays.
-/

/-- A 2-component vector value (the content of a `Vector2`'s buffer). -/
structure Vec2 (α : Type) where
  x : α
  y : α
deriving DecidableEq, Repr

/-- A 3-component vector value (the content of a `Vector3`'s buffer). -/
structure Vec3 (α : Type) where
  x : α
  y : α
  z : α
deriving DecidableEq, Repr

/-- `MathHelper.EPSILON = 0.00001`. -/
def MathHelper.EPSILON : ℚ := 1 / 100000

/-- `MathHelper.lerp(min, max, amount) = min + (max - min) * amount`. -/
def MathHelper.lerp (min max amount : ℚ) : ℚ :=
  min + (max - min) * amount

/-- `MathHelper.clamp(min, max, value)`. -/
def MathHelper.clamp (min max value : ℚ) : ℚ :=
  let value := if value > max then max else value
  let value := if value < min then min else value
  value

/-- `MathHelper.distance(a, b) = |a - b|`. -/
def MathHelper.distance (value1 value2 : ℚ) : ℚ :=
  |value1 - value2|

/-- `MathHelper.equals(a, b, tolerance)`:
`Math.abs(a - b) <= tolerance * Math.max(1.0, Math.abs(a), Math.abs(b))`.
The source defaults `tolerance` to `MathHelper.EPSILON`; the default is made
explicit at call sites here. -/
def MathHelper.equals (a b tolerance : ℚ) : Bool :=
  |a - b| ≤ tolerance * max 1 (max |a| |b|)

/-- A JavaScript value that can reach the `Vector3` constructor:
`undefined`, a (non-`NaN`) number, or an array of numbers. -/
inductive JsVal where
  | undefined
  | num (q : ℚ)
  | arr (l : List ℚ)
deriving DecidableEq, Repr

/-- `Number(v) || 0` for a `JsVal`: `Number(undefined)` is `NaN` (hence `0`),
`Number(n)` is `n` (and `0 || 0 = 0`), `Number([n])` is `n`,
`Number` of any other array is `NaN` for a multi-element array and `0` for
the empty array — in both cases the expression yields `0`. -/
def JsVal.numOr0 : JsVal → ℚ
  | .undefined => 0
  | .num q => q
  | .arr [q] => q
  | .arr _ => 0

/-- A three-element JavaScript array literal `[a, b, c]` as a `JsVal`
(helper, usable inside the `Vector3` namespace where Mathlib's scoped
`Vector3` cons notation shadows list literals). -/
def JsVal.arr3 (a b c : ℚ) : JsVal := .arr [a, b, c]

/-- The `Vector3` constructor: `if (Array.isArray(p1) && p1.length > 3)`
copy the first three array entries via the `xyz` setter, otherwise coerce
each parameter with `Number(…) || 0`. -/
def Vector3.construct (p1 p2 p3 : JsVal) : Vec3 ℚ :=
  match p1 with
  | .arr l =>
    if 3 < l.length then ⟨l.getD 0 0, l.getD 1 0, l.getD 2 0⟩
    else ⟨(JsVal.arr l).numOr0, p2.numOr0, p3.numOr0⟩
  | p => ⟨p.numOr0, p2.numOr0, p3.numOr0⟩

/-- `Vector3.zero = new Vector3([0, 0, 0])`. -/
def Vector3.zero : Vec3 ℚ := Vector3.construct (JsVal.arr3 0 0 0) .undefined .undefined

/-- `Vector3.one = new Vector3([1, 1, 1])`. -/
def Vector3.one : Vec3 ℚ := Vector3.construct (JsVal.arr3 1 1 1) .undefined .undefined

/-- `Vector3.up = new Vector3([0, 1, 0])`. -/
def Vector3.up : Vec3 ℚ := Vector3.construct (JsVal.arr3 0 1 0) .undefined .undefined

/-- `Vector3.down = new Vector3([0, -1, 0])`. -/
def Vector3.down : Vec3 ℚ := Vector3.construct (JsVal.arr3 0 (-1) 0) .undefined .undefined

/-- `Vector3.right = new Vector3([1, 0, 0])`. -/
def Vector3.right : Vec3 ℚ := Vector3.construct (JsVal.arr3 1 0 0) .undefined .undefined

/-- `Vector3.left = new Vector3([0, 1, 0])`. -/
def Vector3.left : Vec3 ℚ := Vector3.construct (JsVal.arr3 0 1 0) .undefined .undefined

/-- `Vector3.forward = new Vector3([0, 0, 1])`. -/
def Vector3.forward : Vec3 ℚ := Vector3.construct (JsVal.arr3 0 0 1) .undefined .undefined

/-- `Vector3.backward = new Vector3([0, 0, -1])`. -/
def Vector3.backward : Vec3 ℚ := Vector3.construct (JsVal.arr3 0 0 (-1)) .undefined .undefined

/-- `Vector3.cross` (value level): reads all six components into locals,
then writes `dest`. -/
def Vector3.cross (vector vector2 : Vec3 ℚ) : Vec3 ℚ :=
  let x := vector.x
  let y := vector.y
  let z := vector.z
  let x2 := vector2.x
  let y2 := vector2.y
  let z2 := vector2.z
  ⟨y * z2 - z * y2, z * x2 - x * z2, x * y2 - y * x2⟩

/-- `Vector2.cross` (value level): returns a `Vector3` whose `xyz` is
`[0, 0, x * y2 - y * x2]`. -/
def Vector2.cross (vector vector2 : Vec2 ℚ) : Vec3 ℚ :=
  let x := vector.x
  let y := vector.y
  let x2 := vector2.x
  let y2 := vector2.y
  let z := x * y2 - y * x2
  ⟨0, 0, z⟩

/-- `Vector3.dot`. -/
def Vector3.dot (vector vector2 : Vec3 ℚ) : ℚ :=
  vector.x * vector2.x + vector.y * vector2.y + vector.z * vector2.z

/-- `Vector3.lerp` (value level): `dest.c = a.c + t * (b.c - a.c)`. -/
def Vector3.lerp (a b : Vec3 ℚ) (t : ℚ) : Vec3 ℚ :=
  ⟨a.x + t * (b.x - a.x), a.y + t * (b.y - a.y), a.z + t * (b.z - a.z)⟩

/-- `Vector2.lerp` (value level): `dest.c = a.c + t * (b.c - a.c)`. -/
def Vector2.lerp (a b : Vec2 ℚ) (t : ℚ) : Vec2 ℚ :=
  ⟨a.x + t * (b.x - a.x), a.y + t * (b.y - a.y)⟩

/-- `Vector3.prototype.equals(other, threshold)`: each component's
`Math.abs(this.c - other.c) > threshold` short-circuits `false`.
The source defaults `threshold` to `MathHelper.EPSILON`; the default is
made explicit at call sites here. -/
def Vector3.equals (this other : Vec3 ℚ) (threshold : ℚ) : Bool :=
  if |this.x - other.x| > threshold then false
  else if |this.y - other.y| > threshold then false
  else if |this.z - other.z| > threshold then false
  else true

/-- `Vector2.prototype.equals(other, threshold)`. -/
def Vector2.equals (this other : Vec2 ℚ) (threshold : ℚ) : Bool :=
  if |this.x - other.x| > threshold then false
  else if |this.y - other.y| > threshold then false
  else true

/-- A heap of `Vector3` objects: a map from reference ids to component
buffers plus the next fresh id (`new` allocates at `next`). -/
structure Heap3 where
  mem : ℕ → Vec3 ℚ
  next : ℕ

/-- A heap of `Vector2` objects. -/
structure Heap2 where
  mem : ℕ → Vec2 ℚ
  next : ℕ

/-- Overwrite the whole buffer of object `r` (one field-assignment's worth
of state change is expressed by writing the updated buffer). -/
def Heap3.write (h : Heap3) (r : ℕ) (v : Vec3 ℚ) : Heap3 :=
  ⟨fun r' => if r' = r then v else h.mem r', h.next⟩

/-- `dest.x = q` on object `r`. -/
def Heap3.setX (h : Heap3) (r : ℕ) (q : ℚ) : Heap3 :=
  h.write r ⟨q, (h.mem r).y, (h.mem r).z⟩

/-- `dest.y = q` on object `r`. -/
def Heap3.setY (h : Heap3) (r : ℕ) (q : ℚ) : Heap3 :=
  h.write r ⟨(h.mem r).x, q, (h.mem r).z⟩

/-- `dest.z = q` on object `r`. -/
def Heap3.setZ (h : Heap3) (r : ℕ) (q : ℚ) : Heap3 :=
  h.write r ⟨(h.mem r).x, (h.mem r).y, q⟩

/-- `new Vector3(v…)`: allocates a fresh object holding `v`, returns its
reference. -/
def Heap3.alloc (h : Heap3) (v : Vec3 ℚ) : ℕ × Heap3 :=
  (h.next, ⟨fun r => if r = h.next then v else h.mem r, h.next + 1⟩)

/-- Overwrite the whole buffer of object `r`. -/
def Heap2.write (h : Heap2) (r : ℕ) (v : Vec2 ℚ) : Heap2 :=
  ⟨fun r' => if r' = r then v else h.mem r', h.next⟩

/-- `dest.x = q` on object `r`. -/
def Heap2.setX (h : Heap2) (r : ℕ) (q : ℚ) : Heap2 :=
  h.write r ⟨q, (h.mem r).y⟩

/-- `dest.y = q` on object `r`. -/
def Heap2.setY (h : Heap2) (r : ℕ) (q : ℚ) : Heap2 :=
  h.write r ⟨(h.mem r).x, q⟩

/-- `new Vector2(v…)`. -/
def Heap2.alloc (h : Heap2) (v : Vec2 ℚ) : ℕ × Heap2 :=
  (h.next, ⟨fun r => if r = h.next then v else h.mem r, h.next + 1⟩)

/-- Body of `Vector3.sum` once `dest` is resolved to `rd`:
`dest.x = vector.x + vector2.x; dest.y = …; dest.z = …`, each statement
reading from the heap produced by the previous one. -/
def Vector3.sumW (h : Heap3) (ra rb rd : ℕ) : Heap3 :=
  let h1 := h.setX rd ((h.mem ra).x + (h.mem rb).x)
  let h2 := h1.setY rd ((h1.mem ra).y + (h1.mem rb).y)
  h2.setZ rd ((h2.mem ra).z + (h2.mem rb).z)

/-- `Vector3.sum(vector, vector2, dest?)`: `if (!dest) dest = new Vector3()`,
then the three component assignments; returns the destination reference. -/
def Vector3.sum (h : Heap3) (ra rb : ℕ) (dest : Option ℕ) : ℕ × Heap3 :=
  match dest with
  | some rd => (rd, Vector3.sumW h ra rb rd)
  | none =>
    let p := h.alloc (Vector3.construct .undefined .undefined .undefined)
    (p.1, Vector3.sumW p.2 ra rb p.1)

/-- Body of `Vector3.prototype.add` once `dest` is resolved:
`dest.x = this.x + vector.x; dest.y = …; dest.z = …`. -/
def Vector3.addW (h : Heap3) (rthis rv rd : ℕ) : Heap3 :=
  let h1 := h.setX rd ((h.mem rthis).x + (h.mem rv).x)
  let h2 := h1.setY rd ((h1.mem rthis).y + (h1.mem rv).y)
  h2.setZ rd ((h2.mem rthis).z + (h2.mem rv).z)

/-- `a.add(vector, dest?)`: `if (!dest) dest = this`, then the component
assignments; returns the destination reference. -/
def Vector3.add (h : Heap3) (rthis rv : ℕ) (dest : Option ℕ) : ℕ × Heap3 :=
  match dest with
  | some rd => (rd, Vector3.addW h rthis rv rd)
  | none => (rthis, Vector3.addW h rthis rv rthis)

/-- Body of `Vector2.sum` once `dest` is resolved. -/
def Vector2.sumW (h : Heap2) (ra rb rd : ℕ) : Heap2 :=
  let h1 := h.setX rd ((h.mem ra).x + (h.mem rb).x)
  h1.setY rd ((h1.mem ra).y + (h1.mem rb).y)

/-- `Vector2.sum(vector, vector2, dest?)`: `if (!dest) dest = new Vector2()`
(a fresh `(0, 0)` object), then the component assignments. -/
def Vector2.sum (h : Heap2) (ra rb : ℕ) (dest : Option ℕ) : ℕ × Heap2 :=
  match dest with
  | some rd => (rd, Vector2.sumW h ra rb rd)
  | none =>
    let p := h.alloc ⟨0, 0⟩
    (p.1, Vector2.sumW p.2 ra rb p.1)

/-- Body of `Vector2.prototype.add` once `dest` is resolved. -/
def Vector2.addW (h : Heap2) (rthis rv rd : ℕ) : Heap2 :=
  let h1 := h.setX rd ((h.mem rthis).x + (h.mem rv).x)
  h1.setY rd ((h1.mem rthis).y + (h1.mem rv).y)

/-- `a.add(vector, dest?)` for `Vector2`: `if (!dest) dest = this`. -/
def Vector2.add (h : Heap2) (rthis rv : ℕ) (dest : Option ℕ) : ℕ × Heap2 :=
  match dest with
  | some rd => (rd, Vector2.addW h rthis rv rd)
  | none => (rthis, Vector2.addW h rthis rv rthis)

/-- `Vector3.prototype.squaredLength` over idealized real components. -/
def Vector3.squaredLength (v : Vec3 ℝ) : ℝ :=
  let x := v.x
  let y := v.y
  let z := v.z
  x * x + y * y + z * z

/-- `Vector3.prototype.length = Math.sqrt(this.squaredLength())`. -/
noncomputable def Vector3.length (v : Vec3 ℝ) : ℝ :=
  Real.sqrt (Vector3.squaredLength v)

/-- `Vector3.prototype.normalize` (value level): copy the source into the
destination, early-exit when the length is exactly `1`, reset to zero when
the length is exactly `0`, otherwise multiply every component by
`1.0 / length`. -/
noncomputable def Vector3.normalize (v : Vec3 ℝ) : Vec3 ℝ :=
  let length := Vector3.length v
  if length = 1 then v
  else if length = 0 then ⟨0, 0, 0⟩
  else ⟨v.x * (1 / length), v.y * (1 / length), v.z * (1 / length)⟩

/-- `Vector3.difference` (value level): componentwise `vector - vector2`. -/
def Vector3.difference (vector vector2 : Vec3 ℝ) : Vec3 ℝ :=
  ⟨vector.x - vector2.x, vector.y - vector2.y, vector.z - vector2.z⟩

/-- `Vector3.direction(vector, vector2, dest?)` (value level): the
difference `vector - vector2`, its length, the zero-length guard, then the
`1 / length` scaling. -/
noncomputable def Vector3.direction (vector vector2 : Vec3 ℝ) : Vec3 ℝ :=
  let x := vector.x - vector2.x
  let y := vector.y - vector2.y
  let z := vector.z - vector2.z
  let length := Real.sqrt (x * x + y * y + z * z)
  if length = 0 then ⟨0, 0, 0⟩
  else ⟨x * (1 / length), y * (1 / length), z * (1 / length)⟩

/-- `Vector2.prototype.squaredLength` over idealized real components. -/
def Vector2.squaredLength (v : Vec2 ℝ) : ℝ :=
  let x := v.x
  let y := v.y
  x * x + y * y

/-- `Vector2.prototype.length`. -/
noncomputable def Vector2.length (v : Vec2 ℝ) : ℝ :=
  Real.sqrt (Vector2.squaredLength v)

/-- `Vector2.prototype.normalize` (value level). -/
noncomputable def Vector2.normalize (v : Vec2 ℝ) : Vec2 ℝ :=
  let length := Vector2.length v
  if length = 1 then v
  else if length = 0 then ⟨0, 0⟩
  else ⟨v.x * (1 / length), v.y * (1 / length)⟩

/-- `Vector2.difference` (value level). -/
def Vector2.difference (vector vector2 : Vec2 ℝ) : Vec2 ℝ :=
  ⟨vector.x - vector2.x, vector.y - vector2.y⟩

/-- `Vector2.direction(vector, vector2, dest?)` (value level); the
zero-length guard calls `dest.reset()`, i.e. sets both components to 0. -/
noncomputable def Vector2.direction (vector vector2 : Vec2 ℝ) : Vec2 ℝ :=
  let x := vector.x - vector2.x
  let y := vector.y - vector2.y
  let length := Real.sqrt (x * x + y * y)
  if length = 0 then ⟨0, 0⟩
  else ⟨x * (1 / length), y * (1 / length)⟩

/-- A concrete two-object `Vector3` heap used by witnesses. -/
def H3ex : Heap3 :=
  ⟨fun r => if r = 0 then ⟨1, 2, 3⟩ else if r = 1 then ⟨4, 5, 6⟩ else ⟨0, 0, 0⟩, 2⟩

/-- A concrete two-object `Vector2` heap used by witnesses. -/
def H2ex : Heap2 :=
  ⟨fun r => if r = 0 then ⟨1, 2⟩ else if r = 1 then ⟨4, 5⟩ else ⟨0, 0⟩, 2⟩

/-- **C1.** Destination-default asymmetry: for every pair of (allocated)
vectors `a`, `b` in each dimension, the static operation `sum(a, b)` with
the destination omitted allocates and returns a new instance and mutates
neither `a` nor `b`, while the instance operation `a.add(b)` with the
destination omitted writes the componentwise sum into the receiver `a` in
place and returns it, leaving the distinct argument `b` unmutated. -/
theorem claim1_destination_default_asymmetry :
    (∀ (h : Heap3) (ra rb : ℕ), ra < h.next → rb < h.next →
      (Vector3.sum h ra rb none).1 = h.next ∧
      (Vector3.sum h ra rb none).1 ≠ ra ∧
      (Vector3.sum h ra rb none).1 ≠ rb ∧
      (Vector3.sum h ra rb none).2.mem ra = h.mem ra ∧
      (Vector3.sum h ra rb none).2.mem rb = h.mem rb ∧
      (Vector3.sum h ra rb none).2.mem (Vector3.sum h ra rb none).1 =
        ⟨(h.mem ra).x + (h.mem rb).x, (h.mem ra).y + (h.mem rb).y,
          (h.mem ra).z + (h.mem rb).z⟩) ∧
    (∀ (h : Heap3) (ra rb : ℕ), ra ≠ rb →
      (Vector3.add h ra rb none).1 = ra ∧
      (Vector3.add h ra rb none).2.mem ra =
        ⟨(h.mem ra).x + (h.mem rb).x, (h.mem ra).y + (h.mem rb).y,
          (h.mem ra).z + (h.mem rb).z⟩ ∧
      (Vector3.add h ra rb none).2.mem rb = h.mem rb) ∧
    (∀ (h : Heap2) (ra rb : ℕ), ra < h.next → rb < h.next →
      (Vector2.sum h ra rb none).1 = h.next ∧
      (Vector2.sum h ra rb none).1 ≠ ra ∧
      (Vector2.sum h ra rb none).1 ≠ rb ∧
      (Vector2.sum h ra rb none).2.mem ra = h.mem ra ∧
      (Vector2.sum h ra rb none).2.mem rb = h.mem rb ∧
      (Vector2.sum h ra rb none).2.mem (Vector2.sum h ra rb none).1 =
        ⟨(h.mem ra).x + (h.mem rb).x, (h.mem ra).y + (h.mem rb).y⟩) ∧
    (∀ (h : Heap2) (ra rb : ℕ), ra ≠ rb →
      (Vector2.add h ra rb none).1 = ra ∧
      (Vector2.add h ra rb none).2.mem ra =
        ⟨(h.mem ra).x + (h.mem rb).x, (h.mem ra).y + (h.mem rb).y⟩ ∧
      (Vector2.add h ra rb none).2.mem rb = h.mem rb) := by
  refine ⟨?_, ?_, ?_, ?_⟩
  · intro h ra rb ha hb
    have hra : ra ≠ h.next := Nat.ne_of_lt ha
    have hrb : rb ≠ h.next := Nat.ne_of_lt hb
    refine ⟨rfl, ?_, ?_, ?_, ?_, ?_⟩ <;>
      simp [Vector3.sum, Vector3.sumW, Heap3.alloc, Heap3.setX, Heap3.setY,
        Heap3.setZ, Heap3.write, hra, hrb, Ne.symm hra, Ne.symm hrb]
  · intro h ra rb hab
    refine ⟨rfl, ?_, ?_⟩ <;>
      simp [Vector3.add, Vector3.addW, Heap3.setX, Heap3.setY, Heap3.setZ,
        Heap3.write, hab, Ne.symm hab]
  · intro h ra rb ha hb
    have hra : ra ≠ h.next := Nat.ne_of_lt ha
    have hrb : rb ≠ h.next := Nat.ne_of_lt hb
    refine ⟨rfl, ?_, ?_, ?_, ?_, ?_⟩ <;>
      simp [Vector2.sum, Vector2.sumW, Heap2.alloc, Heap2.setX, Heap2.setY,
        Heap2.write, hra, hrb, Ne.symm hra, Ne.symm hrb]
  · intro h ra rb hab
    refine ⟨rfl, ?_, ?_⟩ <;>
      simp [Vector2.add, Vector2.addW, Heap2.setX, Heap2.setY,
        Heap2.write, hab, Ne.symm hab]

/-- **C1 witness**: the theorem applied to the concrete two-object heaps. -/
theorem claim1_destination_default_asymmetry_witness :
    (0 < H3ex.next ∧ 1 < H3ex.next ∧
      (Vector3.sum H3ex 0 1 none).1 = H3ex.next ∧
      (Vector3.sum H3ex 0 1 none).2.mem 0 = H3ex.mem 0) ∧
    ((0 : ℕ) ≠ 1 ∧ (Vector3.add H3ex 0 1 none).2.mem 1 = H3ex.mem 1) ∧
    (0 < H2ex.next ∧ 1 < H2ex.next ∧
      (Vector2.sum H2ex 0 1 none).2.mem 1 = H2ex.mem 1) ∧
    ((0 : ℕ) ≠ 1 ∧ (Vector2.add H2ex 0 1 none).1 = 0) :=
  ⟨⟨by decide, by decide,
      (claim1_destination_default_asymmetry.1 H3ex 0 1 (by decide) (by decide)).1,
      (claim1_destination_default_asymmetry.1 H3ex 0 1 (by decide) (by decide)).2.2.2.1⟩,
    ⟨by decide,
      (claim1_destination_default_asymmetry.2.1 H3ex 0 1 (by decide)).2.2⟩,
    ⟨by decide, by decide,
      (claim1_destination_default_asymmetry.2.2.1 H2ex 0 1 (by decide) (by decide)).2.2.2.2.1⟩,
    ⟨by decide,
      (claim1_destination_default_asymmetry.2.2.2 H2ex 0 1 (by decide)).1⟩⟩

/-- **C6.** Aliased in-place operations are computed from pre-mutation
values: for every vector `a`, the self-aliased `a.add(a)` and
`a.add(a, a)` both return the receiver holding `2a` — each component is
the sum of the pre-write component values, no write affecting a later
read — in each dimension. -/
theorem claim6_aliased_add_uses_premutation_values :
    (∀ (h : Heap3) (ra : ℕ),
      (Vector3.add h ra ra none).1 = ra ∧
      (Vector3.add h ra ra none).2.mem ra =
        ⟨2 * (h.mem ra).x, 2 * (h.mem ra).y, 2 * (h.mem ra).z⟩ ∧
      (Vector3.add h ra ra (some ra)).1 = ra ∧
      (Vector3.add h ra ra (some ra)).2.mem ra =
        ⟨2 * (h.mem ra).x, 2 * (h.mem ra).y, 2 * (h.mem ra).z⟩) ∧
    (∀ (h : Heap2) (ra : ℕ),
      (Vector2.add h ra ra none).1 = ra ∧
      (Vector2.add h ra ra none).2.mem ra =
        ⟨2 * (h.mem ra).x, 2 * (h.mem ra).y⟩ ∧
      (Vector2.add h ra ra (some ra)).1 = ra ∧
      (Vector2.add h ra ra (some ra)).2.mem ra =
        ⟨2 * (h.mem ra).x, 2 * (h.mem ra).y⟩) := by
  constructor
  · intro h ra
    refine ⟨rfl, ?_, rfl, ?_⟩ <;>
      simp [Vector3.add, Vector3.addW, Heap3.setX, Heap3.setY, Heap3.setZ,
        Heap3.write, two_mul]
  · intro h ra
    refine ⟨rfl, ?_, rfl, ?_⟩ <;>
      simp [Vector2.add, Vector2.addW, Heap2.setX, Heap2.setY,
        Heap2.write, two_mul]

/-- **C4 counterexample.** The claim asserts that components `0.0000001`
and `0.0000021` compare *unequal* at the default tolerance; in fact the
vector `equals` uses a purely absolute per-component threshold, the
difference `0.000002` does not exceed `EPSILON = 0.00001`, and the two
vectors compare *equal* — in both dimensions. -/
theorem claim4_counterexample_small_magnitudes_compare_equal :
    Vector3.equals ⟨1 / 10000000, 0, 0⟩ ⟨21 / 10000000, 0, 0⟩ MathHelper.EPSILON = true ∧
    Vector2.equals ⟨1 / 10000000, 0⟩ ⟨21 / 10000000, 0⟩ MathHelper.EPSILON = true := by
  constructor <;>
    norm_num [Vector3.equals, Vector2.equals, MathHelper.EPSILON, abs_le]

/-- **C4 (amended).** The vector `equals` operation is reflexive
(`v.equals(v)` is true for every `v` at the default tolerance) and uses a
purely absolute per-component threshold: at the default tolerance,
components `1000000.0` and `1000000.00001` compare equal, and components
`0.0000001` and `0.0000021` also compare equal (their difference
`0.000002` does not exceed `EPSILON`), in every dimension. -/
theorem claim4_equals_reflexive_absolute_threshold :
    (∀ v : Vec3 ℚ, Vector3.equals v v MathHelper.EPSILON = true) ∧
    (∀ v : Vec2 ℚ, Vector2.equals v v MathHelper.EPSILON = true) ∧
    Vector3.equals ⟨1000000, 0, 0⟩ ⟨1000000 + 1 / 100000, 0, 0⟩ MathHelper.EPSILON = true ∧
    Vector2.equals ⟨1000000, 0⟩ ⟨1000000 + 1 / 100000, 0⟩ MathHelper.EPSILON = true ∧
    Vector3.equals ⟨1 / 10000000, 0, 0⟩ ⟨21 / 10000000, 0, 0⟩ MathHelper.EPSILON = true ∧
    Vector2.equals ⟨1 / 10000000, 0⟩ ⟨21 / 10000000, 0⟩ MathHelper.EPSILON = true := by
  refine ⟨?_, ?_, ?_, ?_, ?_, ?_⟩
  · intro v
    simp [Vector3.equals, MathHelper.EPSILON]
  · intro v
    simp [Vector2.equals, MathHelper.EPSILON]
  · norm_num [Vector3.equals, MathHelper.EPSILON, abs_le]
  · norm_num [Vector2.equals, MathHelper.EPSILON, abs_le]
  · norm_num [Vector3.equals, MathHelper.EPSILON, abs_le]
  · norm_num [Vector2.equals, MathHelper.EPSILON, abs_le]

/-- **C5.** For all rationals `a`, `b` and tolerance `t` (the source
default being `EPSILON = 0.00001`), `MathHelper.equals(a, b, t)` returns
`true` exactly when `|a - b| ≤ t * max(1, |a|, |b|)`: an absolute bound
for magnitudes at most `1` and a relative, magnitude-scaled bound for
larger magnitudes. -/
theorem claim5_scalar_equals_combined_tolerance :
    MathHelper.EPSILON = 1 / 100000 ∧
    ∀ a b t : ℚ, MathHelper.equals a b t = true ↔
      |a - b| ≤ t * max 1 (max |a| |b|) := by
  refine ⟨rfl, fun a b t => ?_⟩
  simp [MathHelper.equals]

/-- **C7.** The cross product returns a 3-component result in both
dimensions: for 2-component operands it is `(0, 0, x*y2 - y*x2)` packed
into a `Vector3`, so `cross(Vector2(1,0), Vector2(0,1)) = (0,0,1)`; for
3-component operands it is the full cross product, so
`cross(Vector3(1,0,0), Vector3(0,1,0)) = (0,0,1)`. -/
theorem claim7_cross_three_component_result :
    (∀ a b : Vec2 ℚ, Vector2.cross a b = ⟨0, 0, a.x * b.y - a.y * b.x⟩) ∧
    Vector2.cross ⟨1, 0⟩ ⟨0, 1⟩ = ⟨0, 0, 1⟩ ∧
    (∀ a b : Vec3 ℚ, Vector3.cross a b =
      ⟨a.y * b.z - a.z * b.y, a.z * b.x - a.x * b.z, a.x * b.y - a.y * b.x⟩) ∧
    Vector3.cross ⟨1, 0, 0⟩ ⟨0, 1, 0⟩ = ⟨0, 0, 1⟩ := by
  refine ⟨fun a b => rfl, ?_, fun a b => rfl, ?_⟩ <;>
    norm_num [Vector2.cross, Vector3.cross]

/-- **C8.** For all vectors `a`, `b` in every dimension,
`lerp(a, b, 0) = a`, `lerp(a, b, 1) = b`, and `lerp(a, b, 0.5)` is the
arithmetic midpoint (component `c` computed as `a_c + t*(b_c - a_c)`);
the scalar `lerp` is `min + (max - min) * amount` for *all* `amount`, so
values of `t` outside `[0, 1]` extrapolate rather than clamp. -/
theorem claim8_lerp_endpoints_midpoint_extrapolation :
    (∀ a b : Vec3 ℚ, Vector3.lerp a b 0 = a ∧ Vector3.lerp a b 1 = b ∧
      Vector3.lerp a b (1 / 2) =
        ⟨(a.x + b.x) / 2, (a.y + b.y) / 2, (a.z + b.z) / 2⟩) ∧
    (∀ a b : Vec2 ℚ, Vector2.lerp a b 0 = a ∧ Vector2.lerp a b 1 = b ∧
      Vector2.lerp a b (1 / 2) = ⟨(a.x + b.x) / 2, (a.y + b.y) / 2⟩) ∧
    (∀ mn mx t : ℚ, MathHelper.lerp mn mx t = mn + (mx - mn) * t) ∧
    MathHelper.lerp 0 1 2 = 2 ∧ MathHelper.lerp 0 1 (-1) = -1 := by
  refine ⟨?_, ?_, fun mn mx t => rfl, by norm_num [MathHelper.lerp],
    by norm_num [MathHelper.lerp]⟩
  · intro a b
    refine ⟨?_, ?_, ?_⟩ <;>
      · cases a; cases b
        simp only [Vector3.lerp, Vec3.mk.injEq]
        refine ⟨by ring, by ring, by ring⟩
  · intro a b
    refine ⟨?_, ?_, ?_⟩ <;>
      · cases a; cases b
        simp only [Vector2.lerp, Vec2.mk.injEq]
        refine ⟨by ring, by ring⟩

/-- **C9.** The `Vector3` constructor's array-copy mode is taken only when
the array argument has length strictly greater than 3 (the check is
`p1.length > 3`); an array of exactly length 3 falls through to the
per-component numeric-coercion branch (`Number(…) || 0` on each
parameter), whose first component is then `0`. -/
theorem claim9_constructor_array_length_gate :
    (∀ (l : List ℚ) (p2 p3 : JsVal), 3 < l.length →
      Vector3.construct (.arr l) p2 p3 = ⟨l.getD 0 0, l.getD 1 0, l.getD 2 0⟩) ∧
    (∀ (l : List ℚ) (p2 p3 : JsVal), l.length = 3 →
      Vector3.construct (.arr l) p2 p3 =
        ⟨(JsVal.arr l).numOr0, p2.numOr0, p3.numOr0⟩) ∧
    (∀ (l : List ℚ) (p2 p3 : JsVal), l.length = 3 →
      (Vector3.construct (.arr l) p2 p3).x = 0) := by
  refine ⟨?_, ?_, ?_⟩
  · intro l p2 p3 h
    simp [Vector3.construct, h]
  · intro l p2 p3 h
    simp [Vector3.construct, h]
  · intro l p2 p3 h
    rcases l with _ | ⟨a, _ | ⟨b, _ | ⟨c, _ | ⟨d, t⟩⟩⟩⟩ <;> simp_all
    rfl

/-- **C9 witness**: the array-copy branch at `[5,6,7,8]` and the
fall-through branch at `[5,6,7]`. -/
theorem claim9_constructor_array_length_gate_witness :
    (3 < ([5, 6, 7, 8] : List ℚ).length ∧
      Vector3.construct (.arr [5, 6, 7, 8]) .undefined .undefined = ⟨5, 6, 7⟩) ∧
    (([5, 6, 7] : List ℚ).length = 3 ∧
      (Vector3.construct (.arr [5, 6, 7]) (.num 9) (.num 10)).x = 0) :=
  ⟨⟨by decide,
      by
        rw [claim9_constructor_array_length_gate.1 ([5, 6, 7, 8] : List ℚ)
          .undefined .undefined (by decide)]
        rfl⟩,
    ⟨by decide,
      claim9_constructor_array_length_gate.2.2 ([5, 6, 7] : List ℚ)
        (.num 9) (.num 10) (by decide)⟩⟩

/-- **C10.** For every numeric array with two or three elements,
`new Vector3(arr)` produces `(0, 0, 0)` regardless of the array's values
(the coercion branch applies `Number` to the whole array, `NaN` for a
multi-element array, coerced to `0`, and the remaining parameters are
`undefined`); consequently every named `Vector3` constant built from a
length-3 array (`one`, `up`, `down`, `right`, `left`, `forward`,
`backward`) is the zero vector rather than its documented value. -/
theorem claim10_constants_collapse_to_zero :
    (∀ l : List ℚ, l.length = 2 ∨ l.length = 3 →
      Vector3.construct (.arr l) .undefined .undefined = ⟨0, 0, 0⟩) ∧
    Vector3.one = ⟨0, 0, 0⟩ ∧ Vector3.up = ⟨0, 0, 0⟩ ∧
    Vector3.down = ⟨0, 0, 0⟩ ∧ Vector3.right = ⟨0, 0, 0⟩ ∧
    Vector3.left = ⟨0, 0, 0⟩ ∧ Vector3.forward = ⟨0, 0, 0⟩ ∧
    Vector3.backward = ⟨0, 0, 0⟩ := by
  refine ⟨?_, rfl, rfl, rfl, rfl, rfl, rfl, rfl⟩
  intro l h
  rcases l with _ | ⟨a, _ | ⟨b, _ | ⟨c, _ | ⟨d, t⟩⟩⟩⟩
  · simp at h
  · simp at h
  · rfl
  · rfl
  · simp at h

/-- **C10 witness**: a two-element and a three-element array, both
collapsing to the zero vector. -/
theorem claim10_constants_collapse_to_zero_witness :
    ((([7, 8] : List ℚ).length = 2 ∨ ([7, 8] : List ℚ).length = 3) ∧
      Vector3.construct (.arr [7, 8]) .undefined .undefined = ⟨0, 0, 0⟩) ∧
    ((([7, 8, 9] : List ℚ).length = 2 ∨ ([7, 8, 9] : List ℚ).length = 3) ∧
      Vector3.construct (.arr [7, 8, 9]) .undefined .undefined = ⟨0, 0, 0⟩) :=
  ⟨⟨Or.inl (by decide),
      claim10_constants_collapse_to_zero.1 ([7, 8] : List ℚ) (Or.inl (by decide))⟩,
    ⟨Or.inr (by decide),
      claim10_constants_collapse_to_zero.1 ([7, 8, 9] : List ℚ) (Or.inr (by decide))⟩⟩

/-- A sum of three squares is nonnegative. -/
theorem sumsq3_nonneg (x y z : ℝ) : 0 ≤ x * x + y * y + z * z :=
  add_nonneg (add_nonneg (mul_self_nonneg x) (mul_self_nonneg y)) (mul_self_nonneg z)

/-- A vanishing sum of three squares forces every term to vanish. -/
theorem sumsq3_eq_zero (x y z : ℝ) (h : x * x + y * y + z * z = 0) :
    x = 0 ∧ y = 0 ∧ z = 0 := by
  have hx : x * x = 0 :=
    le_antisymm (by nlinarith [mul_self_nonneg y, mul_self_nonneg z]) (mul_self_nonneg x)
  have hy : y * y = 0 :=
    le_antisymm (by nlinarith [mul_self_nonneg x, mul_self_nonneg z]) (mul_self_nonneg y)
  have hz : z * z = 0 :=
    le_antisymm (by nlinarith [mul_self_nonneg x, mul_self_nonneg y]) (mul_self_nonneg z)
  exact ⟨mul_self_eq_zero.mp hx, mul_self_eq_zero.mp hy, mul_self_eq_zero.mp hz⟩

/-- A sum of two squares is nonnegative. -/
theorem sumsq2_nonneg (x y : ℝ) : 0 ≤ x * x + y * y :=
  add_nonneg (mul_self_nonneg x) (mul_self_nonneg y)

/-- A vanishing sum of two squares forces both terms to vanish. -/
theorem sumsq2_eq_zero (x y : ℝ) (h : x * x + y * y = 0) : x = 0 ∧ y = 0 := by
  have hx : x * x = 0 :=
    le_antisymm (by nlinarith [mul_self_nonneg y]) (mul_self_nonneg x)
  have hy : y * y = 0 :=
    le_antisymm (by nlinarith [mul_self_nonneg x]) (mul_self_nonneg y)
  exact ⟨mul_self_eq_zero.mp hx, mul_self_eq_zero.mp hy⟩

/-- A nonzero `Vector3` has positive squared length. -/
theorem Vector3.squaredLength_pos3 (v : Vec3 ℝ) (hv : v ≠ ⟨0, 0, 0⟩) :
    0 < Vector3.squaredLength v := by
  rcases eq_or_lt_of_le (sumsq3_nonneg v.x v.y v.z) with h | h
  · exfalso
    obtain ⟨hx, hy, hz⟩ := sumsq3_eq_zero v.x v.y v.z h.symm
    apply hv
    have hveta : v = ⟨v.x, v.y, v.z⟩ := rfl
    rw [hveta, hx, hy, hz]
  · exact h

/-- A nonzero `Vector2` has positive squared length. -/
theorem Vector2.squaredLength_pos2 (v : Vec2 ℝ) (hv : v ≠ ⟨0, 0⟩) :
    0 < Vector2.squaredLength v := by
  rcases eq_or_lt_of_le (sumsq2_nonneg v.x v.y) with h | h
  · exfalso
    obtain ⟨hx, hy⟩ := sumsq2_eq_zero v.x v.y h.symm
    apply hv
    have hveta : v = ⟨v.x, v.y⟩ := rfl
    rw [hveta, hx, hy]
  · exact h

/-- Normalizing a nonzero `Vector3` yields a vector of length exactly 1
(in the idealized real model). -/
theorem Vector3.length_normalize3 (v : Vec3 ℝ) (hv : v ≠ ⟨0, 0, 0⟩) :
    Vector3.length (Vector3.normalize v) = 1 := by
  have hsq : 0 < Vector3.squaredLength v := Vector3.squaredLength_pos3 v hv
  have hlen : 0 < Vector3.length v := Real.sqrt_pos.mpr hsq
  have hll : Vector3.length v * Vector3.length v = Vector3.squaredLength v :=
    Real.mul_self_sqrt hsq.le
  by_cases h1 : Vector3.length v = 1
  · rw [show Vector3.normalize v = v by simp [Vector3.normalize, h1]]
    exact h1
  · have hne : Vector3.length v ≠ 0 := ne_of_gt hlen
    have hnv : Vector3.normalize v =
        ⟨v.x * (1 / Vector3.length v), v.y * (1 / Vector3.length v),
          v.z * (1 / Vector3.length v)⟩ := by
      simp [Vector3.normalize, h1, hne]
    rw [hnv]
    have key : Vector3.squaredLength
        ⟨v.x * (1 / Vector3.length v), v.y * (1 / Vector3.length v),
          v.z * (1 / Vector3.length v)⟩ = 1 := by
      simp only [Vector3.squaredLength]
      field_simp
      rw [hll]
      rfl
    rw [Vector3.length, key]
    exact Real.sqrt_one

/-- Normalizing a nonzero `Vector2` yields a vector of length exactly 1. -/
theorem Vector2.length_normalize2 (v : Vec2 ℝ) (hv : v ≠ ⟨0, 0⟩) :
    Vector2.length (Vector2.normalize v) = 1 := by
  have hsq : 0 < Vector2.squaredLength v := Vector2.squaredLength_pos2 v hv
  have hlen : 0 < Vector2.length v := Real.sqrt_pos.mpr hsq
  have hll : Vector2.length v * Vector2.length v = Vector2.squaredLength v :=
    Real.mul_self_sqrt hsq.le
  by_cases h1 : Vector2.length v = 1
  · rw [show Vector2.normalize v = v by simp [Vector2.normalize, h1]]
    exact h1
  · have hne : Vector2.length v ≠ 0 := ne_of_gt hlen
    have hnv : Vector2.normalize v =
        ⟨v.x * (1 / Vector2.length v), v.y * (1 / Vector2.length v)⟩ := by
      simp [Vector2.normalize, h1, hne]
    rw [hnv]
    have key : Vector2.squaredLength
        ⟨v.x * (1 / Vector2.length v), v.y * (1 / Vector2.length v)⟩ = 1 := by
      simp only [Vector2.squaredLength]
      field_simp
      rw [hll]
      rfl
    rw [Vector2.length, key]
    exact Real.sqrt_one

/-- **C2.** For every vector `v`, `normalize(v)` resolves by case: if the
length of `v` is exactly `1`, the destination is a copy of `v` unchanged
(early exit); if the length is exactly `0`, the destination is the zero
vector (no division by zero); otherwise every component is scaled by
`1/length`, and for any nonzero `v` the result's length is within
`EPSILON` of `1` — in each dimension. -/
theorem claim2_normalize_case_resolution :
    (∀ v : Vec3 ℝ,
      (Vector3.length v = 1 → Vector3.normalize v = v) ∧
      (Vector3.length v = 0 → Vector3.normalize v = ⟨0, 0, 0⟩) ∧
      (Vector3.length v ≠ 1 → Vector3.length v ≠ 0 →
        Vector3.normalize v =
          ⟨v.x * (1 / Vector3.length v), v.y * (1 / Vector3.length v),
            v.z * (1 / Vector3.length v)⟩) ∧
      (v ≠ ⟨0, 0, 0⟩ →
        |Vector3.length (Vector3.normalize v) - 1| ≤ (MathHelper.EPSILON : ℝ))) ∧
    (∀ v : Vec2 ℝ,
      (Vector2.length v = 1 → Vector2.normalize v = v) ∧
      (Vector2.length v = 0 → Vector2.normalize v = ⟨0, 0⟩) ∧
      (Vector2.length v ≠ 1 → Vector2.length v ≠ 0 →
        Vector2.normalize v =
          ⟨v.x * (1 / Vector2.length v), v.y * (1 / Vector2.length v)⟩) ∧
      (v ≠ ⟨0, 0⟩ →
        |Vector2.length (Vector2.normalize v) - 1| ≤ (MathHelper.EPSILON : ℝ))) := by
  constructor
  · intro v
    refine ⟨?_, ?_, ?_, ?_⟩
    · intro h
      simp [Vector3.normalize, h]
    · intro h
      simp [Vector3.normalize, h]
    · intro h1 h0
      simp [Vector3.normalize, h1, h0]
    · intro hv
      rw [Vector3.length_normalize3 v hv]
      norm_num [MathHelper.EPSILON]
  · intro v
    refine ⟨?_, ?_, ?_, ?_⟩
    · intro h
      simp [Vector2.normalize, h]
    · intro h
      simp [Vector2.normalize, h]
    · intro h1 h0
      simp [Vector2.normalize, h1, h0]
    · intro hv
      rw [Vector2.length_normalize2 v hv]
      norm_num [MathHelper.EPSILON]

/-- **C2 witness**: the unit early-exit at `(1,0,0)`, the zero guard at
`(0,0,0)`, and the unit-length conclusion at the nonzero `(3,4,0)` and
`(3,4)`. -/
theorem claim2_normalize_case_resolution_witness :
    (Vector3.length ⟨1, 0, 0⟩ = 1 ∧
      Vector3.normalize (⟨1, 0, 0⟩ : Vec3 ℝ) = ⟨1, 0, 0⟩) ∧
    (Vector3.length ⟨0, 0, 0⟩ = 0 ∧
      Vector3.normalize (⟨0, 0, 0⟩ : Vec3 ℝ) = ⟨0, 0, 0⟩) ∧
    ((⟨3, 4, 0⟩ : Vec3 ℝ) ≠ ⟨0, 0, 0⟩ ∧
      |Vector3.length (Vector3.normalize (⟨3, 4, 0⟩ : Vec3 ℝ)) - 1| ≤
        (MathHelper.EPSILON : ℝ)) ∧
    ((⟨3, 4⟩ : Vec2 ℝ) ≠ ⟨0, 0⟩ ∧
      |Vector2.length (Vector2.normalize (⟨3, 4⟩ : Vec2 ℝ)) - 1| ≤
        (MathHelper.EPSILON : ℝ)) := by
  have h1 : Vector3.length ⟨1, 0, 0⟩ = 1 := by
    simp [Vector3.length, Vector3.squaredLength]
  have h0 : Vector3.length ⟨0, 0, 0⟩ = 0 := by
    simp [Vector3.length, Vector3.squaredLength]
  have hv3 : (⟨3, 4, 0⟩ : Vec3 ℝ) ≠ ⟨0, 0, 0⟩ := by
    norm_num [Vec3.mk.injEq]
  have hv2 : (⟨3, 4⟩ : Vec2 ℝ) ≠ ⟨0, 0⟩ := by
    norm_num [Vec2.mk.injEq]
  exact ⟨⟨h1, (claim2_normalize_case_resolution.1 ⟨1, 0, 0⟩).1 h1⟩,
    ⟨h0, (claim2_normalize_case_resolution.1 ⟨0, 0, 0⟩).2.1 h0⟩,
    ⟨hv3, (claim2_normalize_case_resolution.1 ⟨3, 4, 0⟩).2.2.2 hv3⟩,
    ⟨hv2, (claim2_normalize_case_resolution.2 ⟨3, 4⟩).2.2.2 hv2⟩⟩

/-- **C3.** For all vectors `a`, `b` in each dimension, `direction(a, b)`
equals the normalization of the componentwise difference `a - b`
(direction from `b` toward `a`); and when `a` and `b` coincide the result
is the zero vector instead of a NaN. -/
theorem claim3_direction_normalized_difference :
    (∀ a b : Vec3 ℝ,
      Vector3.direction a b = Vector3.normalize (Vector3.difference a b)) ∧
    (∀ a : Vec3 ℝ, Vector3.direction a a = ⟨0, 0, 0⟩) ∧
    (∀ a b : Vec2 ℝ,
      Vector2.direction a b = Vector2.normalize (Vector2.difference a b)) ∧
    (∀ a : Vec2 ℝ, Vector2.direction a a = ⟨0, 0⟩) := by
  refine ⟨?_, ?_, ?_, ?_⟩
  · intro a b
    set d := Vector3.difference a b with hd
    have hdir : Vector3.direction a b =
        if Vector3.length d = 0 then ⟨0, 0, 0⟩
        else ⟨d.x * (1 / Vector3.length d), d.y * (1 / Vector3.length d),
          d.z * (1 / Vector3.length d)⟩ := rfl
    rw [hdir]
    by_cases h0 : Vector3.length d = 0
    · have h1 : Vector3.length d ≠ 1 := by rw [h0]; norm_num
      rw [if_pos h0]
      simp [Vector3.normalize, h0, h1]
    · rw [if_neg h0]
      by_cases h1 : Vector3.length d = 1
      · simp only [Vector3.normalize, h1, if_pos rfl]
        norm_num
      · simp [Vector3.normalize, h0, h1]
  · intro a
    simp [Vector3.direction, sub_self]
  · intro a b
    set d := Vector2.difference a b with hd
    have hdir : Vector2.direction a b =
        if Vector2.length d = 0 then ⟨0, 0⟩
        else ⟨d.x * (1 / Vector2.length d), d.y * (1 / Vector2.length d)⟩ := rfl
    rw [hdir]
    by_cases h0 : Vector2.length d = 0
    · have h1 : Vector2.length d ≠ 1 := by rw [h0]; norm_num
      rw [if_pos h0]
      simp [Vector2.normalize, h0, h1]
    · rw [if_neg h0]
      by_cases h1 : Vector2.length d = 1
      · simp only [Vector2.normalize, h1, if_pos rfl]
        norm_num
      · simp [Vector2.normalize, h0, h1]
  · intro a
    simp [Vector2.direction, sub_self]
